import Mathlib

/-!
Shallow embedding of the `periodic_table` repository
(`src/components/PeriodicTable/ElementBlock.tsx` — provided unnamed — and
`src/components/PeriodicTable/PeriodicTable.tsx`).

JavaScript numbers are modelled as exact rationals (`ℚ`); `null` and
`undefined` become `Option`; JS objects with fixed string keys become `List`
association lists or Lean structures. `THREE.Color` is modelled as an rgb
triple of rationals in the style (sRGB) component space: `setStyle` on a
`#rrggbb` string divides each hex channel by 255, `add` is component-wise
addition without clamping, `lerp` is component-wise linear interpolation, and
`getStyle` prints `rgb(r,g,b)` with each channel rounded from `c*255` by
JavaScript `Math.round` (round half up).
-/

namespace PeriodicTable

/-- The `ElementData` interface from ElementBlock.tsx (lines 6–24): one
element record as stored in component state after the load-time field
renaming. -/
structure ElementData where
  name : String
  symbol : String
  number : Nat
  xpos : ℚ
  ypos : ℚ
  category : String
  cpk_hex : Option String
  atomic_mass : ℚ
  phase : String
  block : String
  summary : String
  melt : Option ℚ
  boil : Option ℚ
  density : Option ℚ
  electronegativity_pauling : Option ℚ
  ionization_energies : List ℚ
  electron_affinity : Option ℚ
  deriving DecidableEq, Repr

/-- The `ColorMode` union type from ElementBlock.tsx (line 26). -/
inductive ColorMode where
  | category
  | phase
  | block
  | cpk
  | atomic_mass
  | density
  | electronegativity
  | ionization
  | electron_affinity
  deriving DecidableEq, Repr

/-- The `categoryColors` table from ElementBlock.tsx (lines 28–39), as an
association list over its own string keys. -/
def categoryColors : List (String × String) :=
  [("diatomic nonmetal", "#00f2ff"),
   ("noble gas", "#bf00ff"),
   ("alkali metal", "#ff0055"),
   ("alkaline earth metal", "#ffaa00"),
   ("metalloid", "#00ff88"),
   ("polyatomic nonmetal", "#00ccff"),
   ("post-transition metal", "#5de2ff"),
   ("transition metal", "#ffea00"),
   ("lanthanide", "#ff00ff"),
   ("actinide", "#ff5500")]

/-- The `phaseColors` table from ElementBlock.tsx (lines 41–46). -/
def phaseColors : List (String × String) :=
  [("Gas", "#ff00ff"),
   ("Solid", "#00f2ff"),
   ("Liquid", "#00ff88"),
   ("Unknown", "#444444")]

/-- The `blockColors` table from ElementBlock.tsx (lines 48–53). -/
def blockColors : List (String × String) :=
  [("s", "#ff0055"),
   ("p", "#00f2ff"),
   ("d", "#ffea00"),
   ("f", "#bf00ff")]

/-- Value of one hexadecimal digit character. -/
def hexDigitVal (c : Char) : Option Nat :=
  if '0' ≤ c ∧ c ≤ '9' then some (c.toNat - '0'.toNat)
  else if 'a' ≤ c ∧ c ≤ 'f' then some (c.toNat - 'a'.toNat + 10)
  else if 'A' ≤ c ∧ c ≤ 'F' then some (c.toNat - 'A'.toNat + 10)
  else none

/-- Parse a `#rrggbb` CSS hex color into its three 0–255 channels. -/
def parseHex6 (s : String) : Option (Nat × Nat × Nat) :=
  match s.toList with
  | ['#', r1, r2, g1, g2, b1, b2] =>
    match hexDigitVal r1, hexDigitVal r2, hexDigitVal g1, hexDigitVal g2,
          hexDigitVal b1, hexDigitVal b2 with
    | some a, some b, some c, some d, some e, some f =>
      some (a * 16 + b, c * 16 + d, e * 16 + f)
    | _, _, _, _, _, _ => none
  | _ => none

/-- Model of `THREE.Color`: an rgb triple, each channel a rational
(1 = full intensity). -/
structure Color where
  r : ℚ
  g : ℚ
  b : ℚ
  deriving DecidableEq, Repr

/-- Model of `new THREE.Color(style)` for the `#rrggbb` strings this code
base passes: each channel is the hex value divided by 255. An unrecognised
style leaves the freshly constructed color at its default white `(1,1,1)`. -/
def Color.ofStyle (s : String) : Color :=
  match parseHex6 s with
  | some (r, g, b) => ⟨(r : ℚ) / 255, (g : ℚ) / 255, (b : ℚ) / 255⟩
  | none => ⟨1, 1, 1⟩

/-- Model of `THREE.Color.add`: component-wise addition, no clamping. -/
def Color.add (c1 c2 : Color) : Color :=
  ⟨c1.r + c2.r, c1.g + c2.g, c1.b + c2.b⟩

/-- Model of `THREE.Color.lerp c2 t`: each channel moves by `(c2 - c1) * t`. -/
def Color.lerp (c1 c2 : Color) (t : ℚ) : Color :=
  ⟨c1.r + (c2.r - c1.r) * t, c1.g + (c2.g - c1.g) * t, c1.b + (c2.b - c1.b) * t⟩

/-- JavaScript `Math.round`: round half toward positive infinity,
i.e. the floor of `q + 1/2`. -/
def jsRound (q : ℚ) : ℤ := ⌊q + 1 / 2⌋

/-- Model of `THREE.Color.getStyle`: the `rgb(r,g,b)` string with each
channel rounded from `c * 255`. -/
def Color.getStyle (c : Color) : String :=
  "rgb(" ++ toString (jsRound (c.r * 255)) ++ "," ++
    toString (jsRound (c.g * 255)) ++ "," ++ toString (jsRound (c.b * 255)) ++ ")"

/-- The clamp `Math.max(0, Math.min(1, x))` from interpolateColor's first
line. -/
def clamp01 (x : ℚ) : ℚ := Max.max 0 (Min.min 1 x)

/-- The `interpolateColor` helper from ElementBlock.tsx (lines 55–61): clamp the
normalised position `t` into [0,1], add `#111122` to the low color, then
lerp toward the high color and print the result's style. -/
def interpolateColor (val min max : ℚ) (colorLow colorHigh : String) : String :=
  let t := clamp01 ((val - min) / (max - min))
  let c1 := Color.ofStyle colorLow
  let c2 := Color.ofStyle colorHigh
  let mixedLow := c1.add (Color.ofStyle "#111122")
  (mixedLow.lerp c2 t).getStyle

/-- JS `x || y` for a possibly-missing string `x`: `undefined` and the empty
string are falsy. -/
def jsOrString (x : Option String) (y : String) : String :=
  match x with
  | some s => if s = "" then y else s
  | none => y

/-- JS `x || 0` for a possibly-missing number: `null`/`undefined` give 0
(a present 0 also gives 0, which coincides). -/
def jsOrZero (x : Option ℚ) : ℚ :=
  match x with
  | some q => q
  | none => 0

/-- The `ranges` prop handed to `ElementBlock`
(`Record<string, [number, number]>`), with the five entries the scene
computes. -/
structure Ranges where
  atomic_mass : ℚ × ℚ
  density : ℚ × ℚ
  electronegativity : ℚ × ℚ
  ionization : ℚ × ℚ
  electron_affinity : ℚ × ℚ
  deriving DecidableEq, Repr

/-- The `color` useMemo of `ElementBlock` (ElementBlock.tsx lines 98–116).
The TS `switch` covers all nine `ColorMode` values, so its
`default: "#ffffff"` arm is unreachable and has no counterpart here.
`element.ionization_energies[0] || 0` reads the head of the list, `0` when
the list is empty. -/
def elementColor (colorMode : ColorMode) (element : ElementData) (ranges : Ranges) : String :=
  match colorMode with
  | .category => jsOrString (categoryColors.lookup element.category) "#444444"
  | .phase => jsOrString (phaseColors.lookup element.phase) "#444444"
  | .block => jsOrString (blockColors.lookup element.block) "#444444"
  | .cpk =>
    match element.cpk_hex with
    | some s => if s = "" then "#444444" else "#" ++ s
    | none => "#444444"
  | .atomic_mass =>
    interpolateColor element.atomic_mass ranges.atomic_mass.1 ranges.atomic_mass.2
      "#222244" "#e94560"
  | .density =>
    interpolateColor (jsOrZero element.density) ranges.density.1 ranges.density.2
      "#222244" "#00d2ff"
  | .electronegativity =>
    interpolateColor (jsOrZero element.electronegativity_pauling)
      ranges.electronegativity.1 ranges.electronegativity.2 "#222244" "#f9d423"
  | .ionization =>
    interpolateColor (jsOrZero element.ionization_energies.head?)
      ranges.ionization.1 ranges.ionization.2 "#222244" "#a8ff78"
  | .electron_affinity =>
    interpolateColor (jsOrZero element.electron_affinity)
      ranges.electron_affinity.1 ranges.electron_affinity.2 "#222244" "#ff0080"

/-- A record of the fetched JSON array before the load-time mapping
(PeriodicTable.tsx lines 43–48): identical to `ElementData` except that the
CPK color sits under the JSON key `cpk-hex` (field `cpkHexRaw` here, the
hyphen not being a legal Lean identifier character) and there is no
`cpk_hex` field yet. -/
structure RawElement where
  name : String
  symbol : String
  number : Nat
  xpos : ℚ
  ypos : ℚ
  category : String
  cpkHexRaw : Option String
  atomic_mass : ℚ
  phase : String
  block : String
  summary : String
  melt : Option ℚ
  boil : Option ℚ
  density : Option ℚ
  electronegativity_pauling : Option ℚ
  ionization_energies : List ℚ
  electron_affinity : Option ℚ
  deriving DecidableEq, Repr

/-- The per-record mapping `el => ({ ...el, cpk_hex: el['cpk-hex'] })`
(PeriodicTable.tsx lines 44–47): spread every field through unchanged and
set `cpk_hex` from the `cpk-hex` key. -/
def mapElement (el : RawElement) : ElementData :=
  { name := el.name
    symbol := el.symbol
    number := el.number
    xpos := el.xpos
    ypos := el.ypos
    category := el.category
    cpk_hex := el.cpkHexRaw
    atomic_mass := el.atomic_mass
    phase := el.phase
    block := el.block
    summary := el.summary
    melt := el.melt
    boil := el.boil
    density := el.density
    electronegativity_pauling := el.electronegativity_pauling
    ionization_energies := el.ionization_energies
    electron_affinity := el.electron_affinity }

/-- The component-local state of `PeriodicTableScene`
(PeriodicTable.tsx lines 17–24). `controlsRef` (an external camera handle)
is not part of the reactive state and is omitted. -/
structure SceneState where
  elements : List ElementData
  hoveredElementId : Option Nat
  selectedElementId : Option Nat
  colorMode : ColorMode
  loading : Bool
  error : Option String
  isMobile : Bool
  showDropdown : Bool
  deriving DecidableEq, Repr

/-- The `useState` initial values (PeriodicTable.tsx lines 17–24). -/
def initialSceneState : SceneState :=
  { elements := []
    hoveredElementId := none
    selectedElementId := none
    colorMode := .category
    loading := true
    error := none
    isMobile := false
    showDropdown := false }

/-- Outcome of the one-time `fetch('/PeriodicTableJSON.json')`
(PeriodicTable.tsx lines 37–56): a parsed element array, a non-ok HTTP
response (which the first `then` turns into a thrown
`HTTP error! status: ...`), or a rejection carrying a message. -/
inductive FetchResult where
  | ok (data : List RawElement)
  | httpError (status : Nat)
  | rejected (message : String)
  deriving DecidableEq, Repr

/-- State updates performed by the fetch effect (PeriodicTable.tsx
lines 37–56): on success store the mapped records and clear `loading`; a
non-ok response throws `HTTP error! status: ${status}` into the `catch`,
which stores `err.message` in `error` and clears `loading`. The effect has
an empty dependency array, so it runs once per mount and this step is
applied to exactly one outcome; no retry path exists. -/
def applyFetch (s : SceneState) (r : FetchResult) : SceneState :=
  match r with
  | .ok data => { s with elements := data.map mapElement, loading := false }
  | .httpError status =>
    { s with error := some ("HTTP error! status: " ++ toString status), loading := false }
  | .rejected message => { s with error := some message, loading := false }

/-- The pair `[Math.min(...xs), Math.max(...xs)]` over a list of property
values: `none` stands for the empty spread, where JS yields `Infinity` /
`-Infinity` (values outside ℚ); otherwise the binary fold over the list. -/
def rangeOf (vals : List ℚ) : Option (ℚ × ℚ) :=
  match vals with
  | [] => none
  | x :: xs => some (xs.foldl Min.min x, xs.foldl Max.max x)

/-- The field-by-field content of the `ranges` useMemo result
(PeriodicTable.tsx lines 58–84). Each entry pairs `Math.min`/`Math.max` of
one property over the records that pass that property's missing-value
filter; `atomic_mass` has no filter. A pair is `none` exactly when the
filtered list is empty (the JS `[Infinity, -Infinity]` pair). -/
structure ComputedRanges where
  atomic_mass : Option (ℚ × ℚ)
  density : Option (ℚ × ℚ)
  electronegativity : Option (ℚ × ℚ)
  ionization : Option (ℚ × ℚ)
  electron_affinity : Option (ℚ × ℚ)
  deriving DecidableEq, Repr

/-- The `ranges` useMemo (PeriodicTable.tsx lines 58–84): `{}` (here `none`)
when no elements are loaded, otherwise the five min/max pairs. The
`ionization` scan filters on `ionization_energies.length > 0` and takes
index 0, i.e. the head of each surviving list. -/
def computeRanges (elements : List ElementData) : Option ComputedRanges :=
  if elements.isEmpty then none
  else some
    { atomic_mass := rangeOf (elements.map (·.atomic_mass))
      density := rangeOf (elements.filterMap (·.density))
      electronegativity := rangeOf (elements.filterMap (·.electronegativity_pauling))
      ionization := rangeOf (elements.filterMap (·.ionization_energies.head?))
      electron_affinity := rangeOf (elements.filterMap (·.electron_affinity)) }

/-- The rendered output of `PeriodicTableScene` as a dependency model: when
`loading` is set the component returns the loading screen
(PeriodicTable.tsx lines 104–110); otherwise it returns the scene JSX
(lines 112–479), whose content reads exactly `elements` (blocks, ranges,
`displayElement`), `hoveredElementId` and `selectedElementId` (via
`activeElementId`), `colorMode` (dropdown, legend), `showDropdown`, and
`isMobile`. The `error` state is read nowhere in either branch. -/
inductive View where
  | loadingScreen
  | scene (elements : List ElementData) (hoveredElementId : Option Nat)
      (selectedElementId : Option Nat) (colorMode : ColorMode)
      (showDropdown : Bool) (isMobile : Bool)
  deriving DecidableEq, Repr

/-- The render function of `PeriodicTableScene` (PeriodicTable.tsx
lines 104–479), abstracted to the state each branch depends on. -/
def render (s : SceneState) : View :=
  if s.loading then .loadingScreen
  else .scene s.elements s.hoveredElementId s.selectedElementId s.colorMode
    s.showDropdown s.isMobile

/-- JS truthiness of a possibly-null element id (`!selectedElementId` in the
`onPointerOver` handler): `null` and `0` are falsy. -/
def jsTruthyNum (o : Option Nat) : Bool :=
  match o with
  | none => false
  | some n => decide (n ≠ 0)

/-- The five state-updating UI events: a click on an element block, a
pointer entering a block (guarded by the `hasMouse` media query), a pointer
leaving a block, a pointer press that hits no block, and the Reset button. -/
inductive UIEvent where
  | click (n : Nat)
  | pointerOver (n : Nat) (hasMouse : Bool)
  | pointerOut (hasMouse : Bool)
  | pointerMissed
  | reset
  deriving DecidableEq, Repr

/-- The state updates of the event handlers: `onClick`/`onPointerOver`/
`onPointerOut` of `ElementBlock` (ElementBlock.tsx lines 134–152) with `n`
standing for `element.number`, `onPointerMissed` of the Canvas
(PeriodicTable.tsx lines 122–125), and `resetScene` (lines 95–102, its
camera reset being external). `onClick` sets the selection to `null` when
the block is already selected and to its number otherwise, and always
clears the hover; `onPointerOver` sets the hover only when a fine pointer
is present and `!selectedElementId` holds. -/
def uiStep (s : SceneState) (e : UIEvent) : SceneState :=
  match e with
  | .click n =>
    let newId : Option Nat := if s.selectedElementId = some n then none else some n
    { s with selectedElementId := newId, hoveredElementId := none }
  | .pointerOver n hasMouse =>
    if hasMouse && !jsTruthyNum s.selectedElementId then
      { s with hoveredElementId := some n }
    else s
  | .pointerOut hasMouse =>
    if hasMouse then { s with hoveredElementId := none } else s
  | .pointerMissed => { s with selectedElementId := none, hoveredElementId := none }
  | .reset =>
    { s with selectedElementId := none, hoveredElementId := none, colorMode := .category }

/-- An event is well-formed when any element number it carries is a real
atomic number (the dataset keys elements by atomic number 1–118, so every
`element.number` handed to a handler is positive). -/
def ValidEvent (e : UIEvent) : Prop :=
  match e with
  | .click n => 1 ≤ n
  | .pointerOver n _ => 1 ≤ n
  | _ => True

/-- States reachable from the initial state through the five UI event
handlers, fired with well-formed element numbers. -/
inductive Reachable : SceneState → Prop where
  | init : Reachable initialSceneState
  | step {s : SceneState} {e : UIEvent} : Reachable s → ValidEvent e →
      Reachable (uiStep s e)

/-- Specification that `p` is the min/max pair of `vals`: present exactly
when `vals` is nonempty, and in that case both components are attained
values bounding every value of the list. -/
def RangePairSpec (p : Option (ℚ × ℚ)) (vals : List ℚ) : Prop :=
  (p = none ↔ vals = []) ∧
    ∀ mn mx, p = some (mn, mx) →
      mn ∈ vals ∧ mx ∈ vals ∧ ∀ v ∈ vals, mn ≤ v ∧ v ≤ mx

/-- Invariant: any selected id in the state is a genuine atomic number
(positive), as it can only have been written by a click handler. -/
def SelValid (s : SceneState) : Prop :=
  ∀ n, s.selectedElementId = some n → 1 ≤ n

/-- A concrete element record (hydrogen-like) used to instantiate the
universally quantified theorems below on an explicit input. -/
def sampleElement : ElementData :=
  { name := "Hydrogen"
    symbol := "H"
    number := 1
    xpos := 1
    ypos := 1
    category := "diatomic nonmetal"
    cpk_hex := some "ffffff"
    atomic_mass := 1
    phase := "Gas"
    block := "s"
    summary := ""
    melt := none
    boil := none
    density := some 1
    electronegativity_pauling := some 2
    ionization_energies := [1312]
    electron_affinity := some 72 }

/-- A concrete element record whose categorical strings miss every color
table and whose numeric properties are all absent. -/
def sampleElementMissing : ElementData :=
  { name := "Unobtainium"
    symbol := "Ub"
    number := 2
    xpos := 2
    ypos := 2
    category := "mysterious metal"
    cpk_hex := none
    atomic_mass := 5
    phase := "Plasma"
    block := "g"
    summary := ""
    melt := none
    boil := none
    density := none
    electronegativity_pauling := none
    ionization_energies := []
    electron_affinity := none }

/-- A concrete `ranges` prop with positive, nondegenerate ranges. -/
def sampleRanges : Ranges :=
  { atomic_mass := (1, 2)
    density := (1, 2)
    electronegativity := (1, 2)
    ionization := (1, 2)
    electron_affinity := (1, 2) }

/-! ### Helper lemmas -/

lemma clamp01_of_nonpos {x : ℚ} (h : x ≤ 0) : clamp01 x = 0 := by
  unfold clamp01
  rw [min_eq_right (h.trans zero_le_one), max_eq_left h]

lemma clamp01_of_one_le {x : ℚ} (h : 1 ≤ x) : clamp01 x = 1 := by
  unfold clamp01
  rw [min_eq_left h, max_eq_right zero_le_one]

lemma clamp01_bounds (x : ℚ) : 0 ≤ clamp01 x ∧ clamp01 x ≤ 1 :=
  ⟨le_max_left 0 _, max_le zero_le_one (min_le_left 1 x)⟩

lemma Color.lerp_zero (c1 c2 : Color) : c1.lerp c2 0 = c1 := by
  cases c1; cases c2; simp [Color.lerp]

lemma Color.lerp_one (c1 c2 : Color) : c1.lerp c2 1 = c2 := by
  cases c1; cases c2
  simp only [Color.lerp, Color.mk.injEq]
  refine ⟨by ring, by ring, by ring⟩

/-- Any value at or below the range minimum of a nondegenerate range
interpolates to the offset low color. -/
lemma interpolateColor_at_low {v mn mx : ℚ} (cl ch : String)
    (hlt : mn < mx) (hv : v ≤ mn) :
    interpolateColor v mn mx cl ch =
      ((Color.ofStyle cl).add (Color.ofStyle "#111122")).getStyle := by
  have ht : clamp01 ((v - mn) / (mx - mn)) = 0 :=
    clamp01_of_nonpos
      (div_nonpos_iff.mpr (Or.inr ⟨sub_nonpos.mpr hv, le_of_lt (sub_pos.mpr hlt)⟩))
  simp only [interpolateColor, ht, Color.lerp_zero]

/-- Any value at or above the range maximum of a nondegenerate range
interpolates to exactly the high color. -/
lemma interpolateColor_at_high {v mn mx : ℚ} (cl ch : String)
    (hlt : mn < mx) (hv : mx ≤ v) :
    interpolateColor v mn mx cl ch = (Color.ofStyle ch).getStyle := by
  have ht : clamp01 ((v - mn) / (mx - mn)) = 1 :=
    clamp01_of_one_le
      ((one_le_div (sub_pos.mpr hlt)).mpr (by linarith))
  simp only [interpolateColor, ht, Color.lerp_one]

lemma foldl_min_le_init (xs : List ℚ) (a : ℚ) : xs.foldl Min.min a ≤ a := by
  induction xs generalizing a with
  | nil => exact le_refl a
  | cons x xs ih =>
    exact le_trans (ih (Min.min a x)) (min_le_left a x)

lemma foldl_min_le_mem (xs : List ℚ) (a : ℚ) :
    ∀ v ∈ xs, xs.foldl Min.min a ≤ v := by
  induction xs generalizing a with
  | nil => intro v hv; cases hv
  | cons x xs ih =>
    intro v hv
    rw [List.foldl_cons]
    rcases List.mem_cons.mp hv with h | h
    · subst h
      exact le_trans (foldl_min_le_init xs (Min.min a v)) (min_le_right a v)
    · exact ih (Min.min a x) v h

lemma foldl_min_mem (xs : List ℚ) (a : ℚ) :
    xs.foldl Min.min a = a ∨ xs.foldl Min.min a ∈ xs := by
  induction xs generalizing a with
  | nil => exact Or.inl rfl
  | cons x xs ih =>
    rcases ih (Min.min a x) with h | h
    · rcases min_choice a x with hm | hm
      · exact Or.inl (by rw [List.foldl_cons, h, hm])
      · exact Or.inr (by rw [List.foldl_cons, h, hm]; exact List.mem_cons_self x xs)
    · exact Or.inr (List.mem_cons_of_mem x h)

lemma foldl_max_init_le (xs : List ℚ) (a : ℚ) : a ≤ xs.foldl Max.max a := by
  induction xs generalizing a with
  | nil => exact le_refl a
  | cons x xs ih =>
    exact le_trans (le_max_left a x) (ih (Max.max a x))

lemma foldl_max_mem_le (xs : List ℚ) (a : ℚ) :
    ∀ v ∈ xs, v ≤ xs.foldl Max.max a := by
  induction xs generalizing a with
  | nil => intro v hv; cases hv
  | cons x xs ih =>
    intro v hv
    rw [List.foldl_cons]
    rcases List.mem_cons.mp hv with h | h
    · subst h
      exact le_trans (le_max_right a v) (foldl_max_init_le xs (Max.max a v))
    · exact ih (Max.max a x) v h

lemma foldl_max_mem (xs : List ℚ) (a : ℚ) :
    xs.foldl Max.max a = a ∨ xs.foldl Max.max a ∈ xs := by
  induction xs generalizing a with
  | nil => exact Or.inl rfl
  | cons x xs ih =>
    rcases ih (Max.max a x) with h | h
    · rcases max_choice a x with hm | hm
      · exact Or.inl (by rw [List.foldl_cons, h, hm])
      · exact Or.inr (by rw [List.foldl_cons, h, hm]; exact List.mem_cons_self x xs)
    · exact Or.inr (List.mem_cons_of_mem x h)

lemma rangeOf_spec (vals : List ℚ) : RangePairSpec (rangeOf vals) vals := by
  constructor
  · cases vals with
    | nil => simp [rangeOf]
    | cons x xs => simp [rangeOf]
  · intro mn mx h
    cases vals with
    | nil => simp [rangeOf] at h
    | cons x xs =>
      simp only [rangeOf, Option.some.injEq, Prod.mk.injEq] at h
      obtain ⟨hmn, hmx⟩ := h
      refine ⟨?_, ?_, ?_⟩
      · rcases foldl_min_mem xs x with h | h
        · rw [← hmn, h]; exact List.mem_cons_self x xs
        · rw [← hmn]; exact List.mem_cons_of_mem x h
      · rcases foldl_max_mem xs x with h | h
        · rw [← hmx, h]; exact List.mem_cons_self x xs
        · rw [← hmx]; exact List.mem_cons_of_mem x h
      · intro v hv
        rcases List.mem_cons.mp hv with h | h
        · subst h
          exact ⟨hmn ▸ foldl_min_le_init xs v, hmx ▸ foldl_max_init_le xs v⟩
        · exact ⟨hmn ▸ foldl_min_le_mem xs x v h, hmx ▸ foldl_max_mem_le xs x v h⟩

lemma ofStyle_222244 : Color.ofStyle "#222244" = ⟨34 / 255, 34 / 255, 68 / 255⟩ := by
  have hp : parseHex6 "#222244" = some (34, 34, 68) := by decide
  simp only [Color.ofStyle, hp]
  norm_num [Color.mk.injEq]

lemma ofStyle_111122 : Color.ofStyle "#111122" = ⟨17 / 255, 17 / 255, 34 / 255⟩ := by
  have hp : parseHex6 "#111122" = some (17, 17, 34) := by decide
  simp only [Color.ofStyle, hp]
  norm_num [Color.mk.injEq]

lemma mixed_low_222244_style :
    ((Color.ofStyle "#222244").add (Color.ofStyle "#111122")).getStyle = "rgb(51,51,102)" := by
  simp only [ofStyle_222244, ofStyle_111122, Color.add, Color.getStyle, jsRound]
  norm_num
  rfl

lemma ofStyle_222244_style : (Color.ofStyle "#222244").getStyle = "rgb(34,34,68)" := by
  simp only [ofStyle_222244, Color.getStyle, jsRound]
  norm_num
  rfl

lemma selValid_init : SelValid initialSceneState := by
  intro n hn
  simp [initialSceneState] at hn

lemma selValid_step {s : SceneState} {e : UIEvent} (hs : SelValid s)
    (hv : ValidEvent e) : SelValid (uiStep s e) := by
  cases e with
  | click n =>
    intro m hm
    by_cases hc : s.selectedElementId = some n
    · simp [uiStep, hc] at hm
    · simp [uiStep, hc] at hm
      exact hm ▸ hv
  | pointerOver n hasMouse =>
    intro m hm
    by_cases hc : (hasMouse && !jsTruthyNum s.selectedElementId) = true
    · simp [uiStep, hc] at hm
      exact hs m hm
    · simp only [uiStep, if_neg hc] at hm
      exact hs m hm
  | pointerOut hasMouse =>
    intro m hm
    by_cases hc : hasMouse = true
    · simp [uiStep, hc] at hm
      exact hs m hm
    · simp only [uiStep, if_neg hc] at hm
      exact hs m hm
  | pointerMissed =>
    intro m hm
    simp [uiStep] at hm
  | reset =>
    intro m hm
    simp [uiStep] at hm

lemma selValid_of_reachable {s : SceneState} (h : Reachable s) : SelValid s := by
  induction h with
  | init => exact selValid_init
  | step _ hv ih => exact selValid_step ih hv

/-- For a nondegenerate positive-minimum range, interpolating the value 0
gives the same string as interpolating the range minimum (both clamp to
`t = 0`). -/
lemma interpolate_zero_eq_min {mn mx : ℚ} (cl ch : String)
    (h0 : 0 < mn) (hlt : mn < mx) :
    interpolateColor 0 mn mx cl ch = interpolateColor mn mn mx cl ch := by
  rw [interpolateColor_at_low cl ch hlt (le_of_lt h0),
    interpolateColor_at_low cl ch hlt (le_refl mn)]

/-! ### Claims -/

/-- C1, counterexample: at `v = min` (here `0` on range `(0, 1)`)
`interpolateColor` does not return `colorLow`: the code first adds `#111122`
to the low color, so with `colorLow = "#222244"` the result is
`rgb(51,51,102)`, while `colorLow` itself renders as `rgb(34,34,68)`. -/
theorem C1_counterexample :
    interpolateColor 0 0 1 "#222244" "#e94560" = "rgb(51,51,102)" ∧
    (Color.ofStyle "#222244").getStyle = "rgb(34,34,68)" ∧
    interpolateColor 0 0 1 "#222244" "#e94560" ≠ (Color.ofStyle "#222244").getStyle ∧
    interpolateColor 0 0 1 "#222244" "#e94560" ≠ "#222244" := by
  have h1 : interpolateColor 0 0 1 "#222244" "#e94560" = "rgb(51,51,102)" := by
    rw [interpolateColor_at_low "#222244" "#e94560" (by norm_num) (le_refl 0)]
    exact mixed_low_222244_style
  refine ⟨h1, ofStyle_222244_style, ?_, ?_⟩
  · rw [h1, ofStyle_222244_style]; decide
  · rw [h1]; decide

/-- C1 (amended): for every numeric range with `min < max` and every value
`v ≤ min` (so `t = 0`, including values clamped up from below `min`),
`interpolateColor` returns the style of `colorLow` with `#111122` added to
it — the offset low-range color, not `colorLow` itself. -/
theorem C1_interpolation_at_minimum (v mn mx : ℚ) (colorLow colorHigh : String)
    (hrange : mn < mx) (hv : v ≤ mn) :
    interpolateColor v mn mx colorLow colorHigh =
      ((Color.ofStyle colorLow).add (Color.ofStyle "#111122")).getStyle :=
  interpolateColor_at_low colorLow colorHigh hrange hv

/-- Witness for C1 (amended) at `v = -2` on the range `(0, 1)`. -/
theorem C1_interpolation_at_minimum_witness :
    (0 : ℚ) < 1 ∧ (-2 : ℚ) ≤ 0 ∧
    interpolateColor (-2) 0 1 "#222244" "#e94560" =
      ((Color.ofStyle "#222244").add (Color.ofStyle "#111122")).getStyle :=
  ⟨by norm_num, by norm_num,
    C1_interpolation_at_minimum (-2) 0 1 "#222244" "#e94560" (by norm_num) (by norm_num)⟩

/-- C5: for every numeric range with `min < max` and every value `v ≥ max`
(so `t = 1`, including values clamped down from above `max`),
`interpolateColor` returns exactly the high-range color's style; and the
interpolation parameter `t` is always clamped into `[0, 1]`. -/
theorem C5_interpolation_at_maximum :
    (∀ (v mn mx : ℚ) (colorLow colorHigh : String), mn < mx → mx ≤ v →
      interpolateColor v mn mx colorLow colorHigh = (Color.ofStyle colorHigh).getStyle) ∧
    ∀ v mn mx : ℚ,
      0 ≤ clamp01 ((v - mn) / (mx - mn)) ∧ clamp01 ((v - mn) / (mx - mn)) ≤ 1 :=
  ⟨fun _ _ _ cl ch h1 h2 => interpolateColor_at_high cl ch h1 h2,
    fun v mn mx => clamp01_bounds ((v - mn) / (mx - mn))⟩

/-- Witness for C5 at `v = 7` on the range `(0, 1)`. -/
theorem C5_interpolation_at_maximum_witness :
    interpolateColor 7 0 1 "#222244" "#e94560" = (Color.ofStyle "#e94560").getStyle ∧
    (0 ≤ clamp01 ((7 - 0) / (1 - 0)) ∧ clamp01 ((7 - 0) / (1 - 0)) ≤ 1) :=
  ⟨C5_interpolation_at_maximum.1 7 0 1 "#222244" "#e94560" (by norm_num) (by norm_num),
    C5_interpolation_at_maximum.2 7 0 1⟩

/-- C7: `interpolateColor` is deterministic — two calls with equal arguments
return equal color strings. (In this embedding it is a plain function of
its five arguments, so it touches no outside state by construction.) -/
theorem C7_pure_deterministic (v mn mx : ℚ) (colorLow colorHigh : String)
    (v2 mn2 mx2 : ℚ) (colorLow2 colorHigh2 : String)
    (hv : v = v2) (hmn : mn = mn2) (hmx : mx = mx2)
    (hcl : colorLow = colorLow2) (hch : colorHigh = colorHigh2) :
    interpolateColor v mn mx colorLow colorHigh =
      interpolateColor v2 mn2 mx2 colorLow2 colorHigh2 := by
  subst hv hmn hmx hcl hch
  rfl

/-- Witness for C7 at one concrete argument tuple. -/
theorem C7_pure_deterministic_witness :
    interpolateColor 3 1 2 "#222244" "#e94560" =
      interpolateColor 3 1 2 "#222244" "#e94560" :=
  C7_pure_deterministic 3 1 2 "#222244" "#e94560" 3 1 2 "#222244" "#e94560"
    rfl rfl rfl rfl rfl

/-- C2, counterexample: after a failed fetch the error message is stored in
state but never surfaced in the rendered output — the render of the failed
state is the normal (empty) scene, identical to the render of the same
state with no error at all. -/
theorem C2_counterexample :
    (applyFetch initialSceneState (.rejected "boom")).error = some "boom" ∧
    (applyFetch initialSceneState (.rejected "boom")).loading = false ∧
    render (applyFetch initialSceneState (.rejected "boom")) =
      View.scene [] none none .category false false ∧
    render (applyFetch initialSceneState (.rejected "boom")) =
      render { applyFetch initialSceneState (.rejected "boom") with error := none } :=
  ⟨rfl, rfl, rfl, rfl⟩

/-- C2 (amended): when the initial fetch fails (non-ok HTTP response or
rejected promise), the component stores the failure message in the `error`
state and clears `loading`, leaving `elements` untouched, and no retry is
attempted (the effect runs once); however the error is not surfaced in the
rendered output — the render never reads the `error` state. -/
theorem C2_fetch_failure_handling (s : SceneState) (message : String) (status : Nat) :
    (applyFetch s (.rejected message)).error = some message ∧
    (applyFetch s (.rejected message)).loading = false ∧
    (applyFetch s (.rejected message)).elements = s.elements ∧
    (applyFetch s (.httpError status)).error =
      some ("HTTP error! status: " ++ toString status) ∧
    (applyFetch s (.httpError status)).loading = false ∧
    ∀ s2 : SceneState, render s2 = render { s2 with error := none } :=
  ⟨rfl, rfl, rfl, rfl, rfl, fun _ => rfl⟩

/-- C6: the data-loading step stores `data.elements.map(mapElement)`, and
the mapping renames exactly one field — the stored record's `cpk_hex`
equals the fetched record's `cpk-hex` and every other field is unchanged. -/
theorem C6_cpk_field_renaming (el : RawElement) (s : SceneState)
    (data : List RawElement) :
    (mapElement el).cpk_hex = el.cpkHexRaw ∧
    (mapElement el).name = el.name ∧
    (mapElement el).symbol = el.symbol ∧
    (mapElement el).number = el.number ∧
    (mapElement el).xpos = el.xpos ∧
    (mapElement el).ypos = el.ypos ∧
    (mapElement el).category = el.category ∧
    (mapElement el).atomic_mass = el.atomic_mass ∧
    (mapElement el).phase = el.phase ∧
    (mapElement el).block = el.block ∧
    (mapElement el).summary = el.summary ∧
    (mapElement el).melt = el.melt ∧
    (mapElement el).boil = el.boil ∧
    (mapElement el).density = el.density ∧
    (mapElement el).electronegativity_pauling = el.electronegativity_pauling ∧
    (mapElement el).ionization_energies = el.ionization_energies ∧
    (mapElement el).electron_affinity = el.electron_affinity ∧
    (applyFetch s (.ok data)).elements = data.map mapElement :=
  ⟨rfl, rfl, rfl, rfl, rfl, rfl, rfl, rfl, rfl, rfl, rfl, rfl, rfl, rfl, rfl,
    rfl, rfl, rfl⟩

/-- C3: for a non-empty loaded element set, each of the five computed ranges
is exactly the (minimum, maximum) pair of that property's values over the
records that have a non-missing value for it — the pair exists iff some
record has a value, both components are attained, and they bound every
scanned value. -/
theorem C3_ranges_minmax (es : List ElementData) (hne : es ≠ []) :
    ∃ r, computeRanges es = some r ∧
      RangePairSpec r.atomic_mass (es.map (·.atomic_mass)) ∧
      RangePairSpec r.density (es.filterMap (·.density)) ∧
      RangePairSpec r.electronegativity
        (es.filterMap (·.electronegativity_pauling)) ∧
      RangePairSpec r.ionization (es.filterMap (·.ionization_energies.head?)) ∧
      RangePairSpec r.electron_affinity (es.filterMap (·.electron_affinity)) := by
  cases es with
  | nil => exact absurd rfl hne
  | cons x xs =>
    refine ⟨_, rfl, ?_, ?_, ?_, ?_, ?_⟩
    · exact rangeOf_spec ((x :: xs).map (·.atomic_mass))
    · exact rangeOf_spec ((x :: xs).filterMap (·.density))
    · exact rangeOf_spec ((x :: xs).filterMap (·.electronegativity_pauling))
    · exact rangeOf_spec ((x :: xs).filterMap (·.ionization_energies.head?))
    · exact rangeOf_spec ((x :: xs).filterMap (·.electron_affinity))

/-- Witness for C3 on the singleton element list `[sampleElement]`. -/
theorem C3_ranges_minmax_witness :
    ∃ r, computeRanges [sampleElement] = some r ∧
      RangePairSpec r.atomic_mass ([sampleElement].map (·.atomic_mass)) ∧
      RangePairSpec r.density ([sampleElement].filterMap (·.density)) ∧
      RangePairSpec r.electronegativity
        ([sampleElement].filterMap (·.electronegativity_pauling)) ∧
      RangePairSpec r.ionization
        ([sampleElement].filterMap (·.ionization_energies.head?)) ∧
      RangePairSpec r.electron_affinity
        ([sampleElement].filterMap (·.electron_affinity)) :=
  C3_ranges_minmax [sampleElement] (List.cons_ne_nil _ _)

/-- C4: in every UI state reachable through the five event handlers, at most
one element id is hovered and at most one is selected (each is a single
optional value), and whenever an element is selected a pointer-over event
leaves the state unchanged — selection locks out hover. -/
theorem C4_hover_selection_invariant (s : SceneState) (hs : Reachable s) :
    (∀ n m, s.hoveredElementId = some n → s.hoveredElementId = some m → n = m) ∧
    (∀ n m, s.selectedElementId = some n → s.selectedElementId = some m → n = m) ∧
    (s.selectedElementId ≠ none →
      ∀ (n : Nat) (hasMouse : Bool), uiStep s (.pointerOver n hasMouse) = s) := by
  refine ⟨?_, ?_, ?_⟩
  · intro n m hn hm
    rw [hn] at hm
    exact Option.some.inj hm
  · intro n m hn hm
    rw [hn] at hm
    exact Option.some.inj hm
  · intro hne n hasMouse
    obtain ⟨k, hk⟩ := Option.ne_none_iff_exists'.mp hne
    have hk1 : 1 ≤ k := selValid_of_reachable hs k hk
    have ht : jsTruthyNum s.selectedElementId = true := by
      rw [hk]
      simp only [jsTruthyNum, decide_eq_true_eq]
      omega
    simp [uiStep, ht]

/-- Witness for C4: the reachable state obtained by clicking element 5 has a
selection, and any pointer-over event then leaves the state unchanged. -/
theorem C4_hover_selection_invariant_witness :
    (uiStep initialSceneState (UIEvent.click 5)).selectedElementId ≠ none ∧
    ∀ (n : Nat) (hasMouse : Bool),
      uiStep (uiStep initialSceneState (UIEvent.click 5))
          (UIEvent.pointerOver n hasMouse) =
        uiStep initialSceneState (UIEvent.click 5) := by
  have hr : Reachable (uiStep initialSceneState (UIEvent.click 5)) :=
    Reachable.step Reachable.init (show 1 ≤ 5 by decide)
  have hne : (uiStep initialSceneState (UIEvent.click 5)).selectedElementId ≠ none := by
    decide
  exact ⟨hne, (C4_hover_selection_invariant _ hr).2.2 hne⟩

/-- C8, counterexample: starting from a state in which element 5 is already
selected, clicking element 5 twice in succession (with no intervening
event) leaves it selected — the selection is `some 5`, not `null`. -/
theorem C8_counterexample :
    (uiStep initialSceneState (UIEvent.click 5)).selectedElementId = some 5 ∧
    (uiStep (uiStep (uiStep initialSceneState (UIEvent.click 5)) (UIEvent.click 5))
        (UIEvent.click 5)).selectedElementId = some 5 ∧
    (uiStep (uiStep (uiStep initialSceneState (UIEvent.click 5)) (UIEvent.click 5))
        (UIEvent.click 5)).selectedElementId ≠ none := by
  refine ⟨by decide, by decide, by decide⟩

/-- C8 (amended): clicking an element toggles its selection — if it is
currently selected the selection becomes `null`, otherwise it becomes the
element's number — and in both cases the hovered id is set to `null`;
consequently, clicking the same element twice in succession starting from a
state in which it is not selected returns the selection to `null`. -/
theorem C8_click_toggle (s : SceneState) (n : Nat) :
    (s.selectedElementId = some n → (uiStep s (.click n)).selectedElementId = none) ∧
    (s.selectedElementId ≠ some n → (uiStep s (.click n)).selectedElementId = some n) ∧
    (uiStep s (.click n)).hoveredElementId = none ∧
    (s.selectedElementId ≠ some n →
      (uiStep (uiStep s (.click n)) (.click n)).selectedElementId = none) := by
  refine ⟨?_, ?_, rfl, ?_⟩
  · intro h
    simp [uiStep, h]
  · intro h
    simp [uiStep, h]
  · intro h
    have h1 : (uiStep s (.click n)).selectedElementId = some n := by
      simp [uiStep, h]
    have h2 : (uiStep (uiStep s (.click n)) (.click n)).selectedElementId =
        (if (uiStep s (.click n)).selectedElementId = some n then none else some n) := rfl
    rw [h2, if_pos h1]

/-- Witness for C8 (amended) at the initial state and element 5. -/
theorem C8_click_toggle_witness :
    (uiStep initialSceneState (UIEvent.click 5)).selectedElementId = some 5 ∧
    (uiStep initialSceneState (UIEvent.click 5)).hoveredElementId = none ∧
    (uiStep (uiStep initialSceneState (UIEvent.click 5))
        (UIEvent.click 5)).selectedElementId = none :=
  ⟨(C8_click_toggle initialSceneState 5).2.1 (by decide),
    (C8_click_toggle initialSceneState 5).2.2.1,
    (C8_click_toggle initialSceneState 5).2.2.2 (by decide)⟩

/-- C9: the per-element color is total with a fixed fallback — in category,
phase, or block mode an element whose string misses the corresponding table
is colored `#444444`; in cpk mode an element with no `cpk_hex` is colored
`#444444`; and every element receives some color in every mode. -/
theorem C9_color_total_fallback (e : ElementData) (rg : Ranges) :
    (categoryColors.lookup e.category = none →
      elementColor .category e rg = "#444444") ∧
    (phaseColors.lookup e.phase = none → elementColor .phase e rg = "#444444") ∧
    (blockColors.lookup e.block = none → elementColor .block e rg = "#444444") ∧
    (e.cpk_hex = none → elementColor .cpk e rg = "#444444") ∧
    ∀ m : ColorMode, ∃ c : String, elementColor m e rg = c := by
  refine ⟨?_, ?_, ?_, ?_, fun m => ⟨_, rfl⟩⟩ <;> intro h <;>
    simp [elementColor, jsOrString, h]

/-- Witness for C9 on a concrete element missing every table key and the
CPK color. -/
theorem C9_color_total_fallback_witness :
    categoryColors.lookup sampleElementMissing.category = none ∧
    elementColor .category sampleElementMissing sampleRanges = "#444444" ∧
    elementColor .phase sampleElementMissing sampleRanges = "#444444" ∧
    elementColor .block sampleElementMissing sampleRanges = "#444444" ∧
    elementColor .cpk sampleElementMissing sampleRanges = "#444444" :=
  ⟨by decide,
    (C9_color_total_fallback sampleElementMissing sampleRanges).1 (by decide),
    (C9_color_total_fallback sampleElementMissing sampleRanges).2.1 (by decide),
    (C9_color_total_fallback sampleElementMissing sampleRanges).2.2.1 (by decide),
    (C9_color_total_fallback sampleElementMissing sampleRanges).2.2.2.1 (by decide)⟩

/-- C10: in the numeric modes density, electronegativity, ionization and
electron_affinity, an element with a missing value is colored by
interpolating the value 0, and when the computed range has a positive
minimum (and `min < max`) this clamps to `t = 0`, giving the same color as
an element sitting exactly at the range minimum. -/
theorem C10_missing_numeric_low (e : ElementData) (rg : Ranges) :
    (e.density = none →
      elementColor .density e rg =
        interpolateColor 0 rg.density.1 rg.density.2 "#222244" "#00d2ff" ∧
      (0 < rg.density.1 → rg.density.1 < rg.density.2 →
        elementColor .density e rg =
          interpolateColor rg.density.1 rg.density.1 rg.density.2
            "#222244" "#00d2ff")) ∧
    (e.electronegativity_pauling = none →
      elementColor .electronegativity e rg =
        interpolateColor 0 rg.electronegativity.1 rg.electronegativity.2
          "#222244" "#f9d423" ∧
      (0 < rg.electronegativity.1 →
        rg.electronegativity.1 < rg.electronegativity.2 →
        elementColor .electronegativity e rg =
          interpolateColor rg.electronegativity.1 rg.electronegativity.1
            rg.electronegativity.2 "#222244" "#f9d423")) ∧
    (e.ionization_energies = [] →
      elementColor .ionization e rg =
        interpolateColor 0 rg.ionization.1 rg.ionization.2 "#222244" "#a8ff78" ∧
      (0 < rg.ionization.1 → rg.ionization.1 < rg.ionization.2 →
        elementColor .ionization e rg =
          interpolateColor rg.ionization.1 rg.ionization.1 rg.ionization.2
            "#222244" "#a8ff78")) ∧
    (e.electron_affinity = none →
      elementColor .electron_affinity e rg =
        interpolateColor 0 rg.electron_affinity.1 rg.electron_affinity.2
          "#222244" "#ff0080" ∧
      (0 < rg.electron_affinity.1 →
        rg.electron_affinity.1 < rg.electron_affinity.2 →
        elementColor .electron_affinity e rg =
          interpolateColor rg.electron_affinity.1 rg.electron_affinity.1
            rg.electron_affinity.2 "#222244" "#ff0080")) := by
  refine ⟨fun h => ?_, fun h => ?_, fun h => ?_, fun h => ?_⟩
  · have he : elementColor .density e rg =
        interpolateColor 0 rg.density.1 rg.density.2 "#222244" "#00d2ff" := by
      simp [elementColor, jsOrZero, h]
    exact ⟨he, fun h0 hlt => he.trans (interpolate_zero_eq_min _ _ h0 hlt)⟩
  · have he : elementColor .electronegativity e rg =
        interpolateColor 0 rg.electronegativity.1 rg.electronegativity.2
          "#222244" "#f9d423" := by
      simp [elementColor, jsOrZero, h]
    exact ⟨he, fun h0 hlt => he.trans (interpolate_zero_eq_min _ _ h0 hlt)⟩
  · have he : elementColor .ionization e rg =
        interpolateColor 0 rg.ionization.1 rg.ionization.2 "#222244" "#a8ff78" := by
      simp [elementColor, jsOrZero, h]
    exact ⟨he, fun h0 hlt => he.trans (interpolate_zero_eq_min _ _ h0 hlt)⟩
  · have he : elementColor .electron_affinity e rg =
        interpolateColor 0 rg.electron_affinity.1 rg.electron_affinity.2
          "#222244" "#ff0080" := by
      simp [elementColor, jsOrZero, h]
    exact ⟨he, fun h0 hlt => he.trans (interpolate_zero_eq_min _ _ h0 hlt)⟩

/-- Witness for C10 on a concrete element with every numeric property
missing and ranges `(1, 2)`. -/
theorem C10_missing_numeric_low_witness :
    sampleElementMissing.density = none ∧
    elementColor .density sampleElementMissing sampleRanges =
      interpolateColor 0 sampleRanges.density.1 sampleRanges.density.2
        "#222244" "#00d2ff" ∧
    elementColor .density sampleElementMissing sampleRanges =
      interpolateColor sampleRanges.density.1 sampleRanges.density.1
        sampleRanges.density.2 "#222244" "#00d2ff" ∧
    elementColor .ionization sampleElementMissing sampleRanges =
      interpolateColor sampleRanges.ionization.1 sampleRanges.ionization.1
        sampleRanges.ionization.2 "#222244" "#a8ff78" :=
  ⟨rfl,
    ((C10_missing_numeric_low sampleElementMissing sampleRanges).1 rfl).1,
    ((C10_missing_numeric_low sampleElementMissing sampleRanges).1 rfl).2
      (by decide) (by decide),
    ((C10_missing_numeric_low sampleElementMissing sampleRanges).2.2.1 rfl).2
      (by decide) (by decide)⟩

end PeriodicTable
